import Mathlib

/-!
Verification of the kafkaconnect-utils managers: a shallow embedding of
`connect_manager.py` and `schema_registry_manager.py`.

Pure data transformations (the connector-info enrichment, JDBC URL
decomposition, subject derivation) are translated directly into Lean
functions.  HTTP exchanges are modelled by scripting: every operation takes
the list of responses the remote server would produce, consumes them in
order, and additionally returns the trace of requests it issued, so that
"before any HTTP request" and "exactly two calls" become statements about
that trace.  The unbounded 409 retry loop is driven by the response script,
so the script doubles as fuel; running out of script is reported with a
distinguished `scriptExhausted` error that no real execution produces.
Python `KeyError` / `IndexError` / `ValueError` / `TypeError` and the
exception classes of `exceptions.py` are the constructors of `Err`.
-/

namespace KCU

/-- Python `t in s` on lists of characters: `listIsPfx t l` is
`l.startswith(t)`. -/
def listIsPfx : List Char → List Char → Bool
  | [], _ => true
  | _ :: _, [] => false
  | a :: as, b :: bs => a == b && listIsPfx as bs

/-- `listHasSub t l` is true when `t` occurs contiguously inside `l`. -/
def listHasSub (t : List Char) : List Char → Bool
  | [] => t.isEmpty
  | c :: cs => listIsPfx t (c :: cs) || listHasSub t cs

/-- Python `t in s` for strings: substring containment. -/
def strHasSub (s t : String) : Bool := listHasSub t.toList s.toList

/-- Python `s.split(sep)` for a one-character separator (every separator
the source splits on — "/", "@", ";", "=", "?", "," — is one character),
on the character list: splits at every occurrence and keeps empty parts. -/
def pySplitAux (sep : Char) : List Char → List Char → List (List Char)
  | [], acc => [acc.reverse]
  | c :: cs, acc =>
    if c == sep then acc.reverse :: pySplitAux sep cs []
    else pySplitAux sep cs (c :: acc)

/-- Python `s.split(sep)` on strings, one-character separator. -/
def pySplit (s : String) (sep : Char) : List String :=
  (pySplitAux sep s.toList []).map (fun l => String.mk l)

/-- Python list indexing `xs[i]` with negative-index support; `none` models
an `IndexError`. -/
def pyIdx (xs : List String) (i : Int) : Option String :=
  let n : Int := Int.ofNat xs.length
  let j : Int := if i < 0 then i + n else i
  if 0 ≤ j && j < n then xs.get? j.toNat else none

/-- Python `max(l)` on a list of ints: `ValueError` (`none`) on the empty
list, the maximum otherwise. -/
def pyMax : List Nat → Option Nat
  | [] => none
  | x :: xs => some (xs.foldl Nat.max x)

/-- The error taxonomy: Python built-in exceptions raised by the managers
plus the classes of `exceptions.py` and the `requests` exceptions they
extend.  `scriptExhausted` is the modelling artifact for a response script
that ends while the code would still be issuing requests. -/
inductive Err
  | valueError
  | typeError
  | keyError (k : String)
  | indexError
  | schemaParseException
  | noConnectServerAvailable
  | noSchemaRegistryAvailable
  | noConnectorAvailable
  | httpError (code : Nat)
  | scriptExhausted
deriving Repr, DecidableEq

/-- The value stored under the `topics` key of the enriched connector dict.
In whitelist mode the code stores a Python list of topic names; in query
mode it stores the raw `topic.prefix` string itself (`connect_manager.py`
line 208), so the two shapes must be kept apart. -/
inductive Topics
  | str (s : String)
  | list (l : List String)
deriving Repr, DecidableEq

/-- Python iteration over the `topics` value: iterating a list yields its
elements, iterating a string yields its one-character substrings. -/
def topicsIter : Topics → List String
  | .list l => l
  | .str s => s.toList.map (fun c => String.mk [c])

/-- `list(chain.from_iterable((f(x), g(x)) for x in topics))` with
`f x = x ++ "-key"` and `g x = x ++ "-value"` (lines 210-212). -/
def deriveSubjects (t : Topics) : List String :=
  (topicsIter t).flatMap (fun x => [x ++ "-key", x ++ "-value"])

/-- The raw JSON document returned by `GET /connectors/{id}`: a name and
the configuration mapping (modelled as an association list with the first
binding of a key authoritative, as in a Python dict). -/
structure RawConnector where
  name : String
  config : List (String × String)
deriving Repr, DecidableEq

/-- The dict built by `get_connector_info` (lines 169-229).  Keys the code
may leave unset are `Option`s; reading an absent key in Python would raise
`KeyError`, so absence is observable. -/
structure ConnectorInfo where
  name : String
  config : List (String × String)
  vendor : String
  state : String
  type_ : String
  class_ : Option String := none
  jdbc_type : Option String := none
  jdbc_location : Option String := none
  jdbc_database : Option String := none
  jdbc_sid : Option String := none
  tables : Option (List String) := none
  topics : Option Topics := none
  subjects : Option (List String) := none
deriving Repr, DecidableEq

/-- The JDBC fields set by the dialect chain (lines 182-201). -/
structure JdbcF where
  jdbc_type : Option String := none
  jdbc_location : Option String := none
  jdbc_database : Option String := none
  jdbc_sid : Option String := none
deriving Repr, DecidableEq

/-- The dialect if/elif chain on `connection.url` (lines 182-201): locate a
dialect substring, then positional string splits.  `none` models an
uncaught `IndexError` from an out-of-range split index; a URL matching no
dialect leaves every field unset (there is no else branch). -/
def jdbcFields (url : String) : Option JdbcF :=
  if strHasSub url "mysql" then
    match pyIdx (pySplit url '/') 2, pyIdx (pySplit url '/') 3 with
    | some loc, some seg =>
      match pyIdx (pySplit seg '?') 0 with
      | some db => some { jdbc_type := some "mysql", jdbc_location := some loc,
                          jdbc_database := some db }
      | none => none
    | _, _ => none
  else if strHasSub url "oracle" then
    match pyIdx (pySplit url '@') 1 with
    | some seg =>
      match pyIdx (pySplit seg '/') 0, pyIdx (pySplit url '/') (-1) with
      | some loc, some sid => some { jdbc_type := some "oracle",
                                     jdbc_location := some loc,
                                     jdbc_sid := some sid }
      | _, _ => none
    | none => none
  else if strHasSub url "postgresql" then
    match pyIdx (pySplit url '/') 2, pyIdx (pySplit url '/') (-1) with
    | some loc, some db => some { jdbc_type := some "postgresql",
                                  jdbc_location := some loc,
                                  jdbc_database := some db }
    | _, _ => none
  else if strHasSub url "sqlserver" then
    match pyIdx (pySplit url ';') 0, pyIdx (pySplit url ';') (-1) with
    | some seg0, some segN =>
      match pyIdx (pySplit seg0 '/') (-1), pyIdx (pySplit segN '=') 1 with
      | some loc, some db => some { jdbc_type := some "sqlserver",
                                    jdbc_location := some loc,
                                    jdbc_database := some db }
      | _, _ => none
    | _, _ => none
  else if strHasSub url "mariadb" then
    match pyIdx (pySplit url '/') (-2), pyIdx (pySplit url '/') (-1) with
    | some loc, some db => some { jdbc_type := some "mariadb",
                                  jdbc_location := some loc,
                                  jdbc_database := some db }
    | _, _ => none
  else
    some {}

def jdbcSrcClass : String := "io.confluent.connect.jdbc.JdbcSourceConnector"

/-- The classification and enrichment of `get_connector_info` after the
config and status fetches (lines 169-229), as a pure function of the raw
connector document and the state string returned by the status call.
Errors are the uncaught Python exceptions the code would raise. -/
def enrichInfo (raw : RawConnector) (state : String) : Except Err ConnectorInfo :=
  match raw.config.lookup "connector.class" with
  | none => Except.error (Err.keyError "connector.class")
  | some cls =>
    let type_ : String :=
      if strHasSub cls "Source" then "source"
      else if strHasSub cls "Sink" then "sink"
      else "undetermined"
    let vendor : String := if strHasSub cls "confluent" then "Confluent" else "Unknown"
    let base : ConnectorInfo :=
      { name := raw.name, config := raw.config, vendor := vendor,
        state := state, type_ := type_ }
    if cls = jdbcSrcClass then
      match raw.config.lookup "connection.url" with
      | none => Except.error (Err.keyError "connection.url")
      | some url =>
        match jdbcFields url with
        | none => Except.error Err.indexError
        | some jf =>
          match raw.config.lookup "table.whitelist" with
          | some wl =>
            let tables := pySplit wl ','
            match raw.config.lookup "topic.prefix" with
            | none => Except.error (Err.keyError "topic.prefix")
            | some pfx =>
              let topics := Topics.list (tables.map (fun t => pfx ++ t))
              Except.ok { base with
                class_ := some "JDBC"
                jdbc_type := jf.jdbc_type
                jdbc_location := jf.jdbc_location
                jdbc_database := jf.jdbc_database
                jdbc_sid := jf.jdbc_sid
                tables := some tables
                topics := some topics
                subjects := some (deriveSubjects topics) }
          | none =>
            match raw.config.lookup "topic.prefix" with
            | none => Except.error (Err.keyError "topic.prefix")
            | some pfx =>
              let topics := Topics.str pfx
              Except.ok { base with
                class_ := some "JDBC"
                jdbc_type := jf.jdbc_type
                jdbc_location := jf.jdbc_location
                jdbc_database := jf.jdbc_database
                jdbc_sid := jf.jdbc_sid
                tables := some []
                topics := some topics
                subjects := some (deriveSubjects topics) }
    else if cls = "io.confluent.connect.activemq.ActiveMQSourceConnectorConfig" then
      Except.ok { base with class_ := some "ActiveMQ" }
    else if cls = "io.confluent.connect.s3.S3SinkConnector" then
      Except.ok { base with class_ := some "S3" }
    else if cls = "io.confluent.connect.elasticsearch.ElasticsearchSinkConnector" then
      Except.ok { base with class_ := some "Elasticsearch" }
    else if cls = "io.confluent.connect.hdfs.HdfsSinkConnector" then
      Except.ok { base with class_ := some "HDFS" }
    else if cls = "io.confluent.connect.ibm.mq.IbmMQSourceConnectorConfig" then
      Except.ok { base with class_ := some "IBM MQ" }
    else if cls = "io.confluent.connect.jdbc.JdbcSinkConnector" then
      Except.ok { base with class_ := some "JDBC" }
    else if cls = "io.confluent.connect.jms.JmsSourceConnector" then
      Except.ok { base with class_ := some "JMS" }
    else
      Except.ok { base with topics := some (Topics.list []) }

/-! ### Connect manager: scripted HTTP layer -/

/-- Bodies of responses from the Connect REST interface: the connector
document for `GET /connectors/{id}`, the status document (reduced to the
state string the code extracts) for `GET /connectors/{id}/status`, and an
ignored body for the lifecycle verbs. -/
inductive CBody
  | raw (r : RawConnector)
  | st (state : String)
  | emptyB
deriving Repr, DecidableEq

/-- A scripted response of the Connect server: either a transport-level
`ConnectionError` or an HTTP status with a body. -/
inductive CResp
  | connFail
  | status (code : Nat) (body : CBody)
deriving Repr, DecidableEq

/-- Request descriptor for `GET /connectors/{id}`. -/
def cPath (ip id : String) : String := "GET http://" ++ ip ++ "/connectors/" ++ id

/-- Request descriptor for `GET /connectors/{id}/status`. -/
def cStatusPath (ip id : String) : String :=
  "GET http://" ++ ip ++ "/connectors/" ++ id ++ "/status"

/-- The config-fetch retry loop of `get_connector_info` (lines 149-167):
2xx/3xx returns the body, 404 raises `NoConnectorAvailable`, 409 sleeps one
second and reissues the same request, any other error status raises
`HTTPError`, and a transport failure raises `NoConnectServerAvailable`.
Returns the outcome with the unread rest of the script, the trace of issued
requests, and the total seconds slept. -/
def fetchConnector (ip id : String) :
    List CResp → Except Err (RawConnector × List CResp) × List String × Nat
  | [] => (Except.error Err.scriptExhausted, [], 0)
  | CResp.connFail :: _ => (Except.error Err.noConnectServerAvailable, [cPath ip id], 0)
  | CResp.status code body :: rest =>
    if code < 400 then
      match body with
      | CBody.raw r => (Except.ok (r, rest), [cPath ip id], 0)
      | _ => (Except.error (Err.keyError "config"), [cPath ip id], 0)
    else if code = 404 then
      (Except.error Err.noConnectorAvailable, [cPath ip id], 0)
    else if code = 409 then
      let (res, tr, slept) := fetchConnector ip id rest
      (res, cPath ip id :: tr, slept + 1)
    else
      (Except.error (Err.httpError code), [cPath ip id], 0)

/-- `get_connector_status` (lines 231-266): one GET, 404 mapped to
`NoConnectorAvailable`, other error statuses raising `HTTPError`, success
extracting the state string. -/
def get_connector_status (ip id : String) (script : List CResp) :
    Except Err String × List String × List CResp :=
  if id.length = 0 then (Except.error Err.valueError, [], script)
  else
    match script with
    | [] => (Except.error Err.scriptExhausted, [], [])
    | CResp.connFail :: rest =>
      (Except.error Err.noConnectServerAvailable, [cStatusPath ip id], rest)
    | CResp.status code body :: rest =>
      if code < 400 then
        match body with
        | CBody.st s => (Except.ok s, [cStatusPath ip id], rest)
        | _ => (Except.error (Err.keyError "connector"), [cStatusPath ip id], rest)
      else if code = 404 then
        (Except.error Err.noConnectorAvailable, [cStatusPath ip id], rest)
      else
        (Except.error (Err.httpError code), [cStatusPath ip id], rest)

/-- `get_connector_info` (lines 105-229): rejects an empty identifier, runs
the retried config fetch, fetches the status, then classifies and enriches.
Returns the result together with the request trace and the seconds slept in
the retry loop. -/
def get_connector_info (ip id : String) (script : List CResp) :
    Except Err ConnectorInfo × List String × Nat :=
  if id.length = 0 then (Except.error Err.valueError, [], 0)
  else
    match fetchConnector ip id script with
    | (Except.error e, tr, slept) => (Except.error e, tr, slept)
    | (Except.ok (raw, rest), tr, slept) =>
      match get_connector_status ip id rest with
      | (Except.error e, tr2, _) => (Except.error e, tr ++ tr2, slept)
      | (Except.ok state, tr2, _) => (enrichInfo raw state, tr ++ tr2, slept)

/-- `pause_connector` (lines 309-339): one PUT; the only mapped failure is
the transport `ConnectionError`; every error status — including 404 — is
re-raised as the generic `HTTPError` (there is no 404 branch in the
source). -/
def pause_connector (ip id : String) (script : List CResp) :
    Except Err Bool × List String × List CResp :=
  if id.length = 0 then (Except.error Err.valueError, [], script)
  else
    match script with
    | [] => (Except.error Err.scriptExhausted, [], [])
    | CResp.connFail :: rest =>
      (Except.error Err.noConnectServerAvailable,
       ["PUT http://" ++ ip ++ "/connectors/" ++ id ++ "/pause"], rest)
    | CResp.status code _ :: rest =>
      if code < 400 then
        (Except.ok true, ["PUT http://" ++ ip ++ "/connectors/" ++ id ++ "/pause"], rest)
      else
        (Except.error (Err.httpError code),
         ["PUT http://" ++ ip ++ "/connectors/" ++ id ++ "/pause"], rest)

/-- `resume_connector` (lines 341-376): one PUT; 404 maps to
`NoConnectorAvailable`, other error statuses to `HTTPError`. -/
def resume_connector (ip id : String) (script : List CResp) :
    Except Err Bool × List String × List CResp :=
  if id.length = 0 then (Except.error Err.valueError, [], script)
  else
    match script with
    | [] => (Except.error Err.scriptExhausted, [], [])
    | CResp.connFail :: rest =>
      (Except.error Err.noConnectServerAvailable,
       ["PUT http://" ++ ip ++ "/connectors/" ++ id ++ "/resume"], rest)
    | CResp.status code _ :: rest =>
      if code < 400 then
        (Except.ok true, ["PUT http://" ++ ip ++ "/connectors/" ++ id ++ "/resume"], rest)
      else if code = 404 then
        (Except.error Err.noConnectorAvailable,
         ["PUT http://" ++ ip ++ "/connectors/" ++ id ++ "/resume"], rest)
      else
        (Except.error (Err.httpError code),
         ["PUT http://" ++ ip ++ "/connectors/" ++ id ++ "/resume"], rest)

/-- `restart_connector` (lines 378-415): one POST; 404 maps to
`NoConnectorAvailable`, other error statuses to `HTTPError`. -/
def restart_connector (ip id : String) (script : List CResp) :
    Except Err Bool × List String × List CResp :=
  if id.length = 0 then (Except.error Err.valueError, [], script)
  else
    match script with
    | [] => (Except.error Err.scriptExhausted, [], [])
    | CResp.connFail :: rest =>
      (Except.error Err.noConnectServerAvailable,
       ["POST http://" ++ ip ++ "/connectors/" ++ id ++ "/restart"], rest)
    | CResp.status code _ :: rest =>
      if code < 400 then
        (Except.ok true, ["POST http://" ++ ip ++ "/connectors/" ++ id ++ "/restart"], rest)
      else if code = 404 then
        (Except.error Err.noConnectorAvailable,
         ["POST http://" ++ ip ++ "/connectors/" ++ id ++ "/restart"], rest)
      else
        (Except.error (Err.httpError code),
         ["POST http://" ++ ip ++ "/connectors/" ++ id ++ "/restart"], rest)

/-- `delete_connector` (lines 417-452): one DELETE; 404 maps to
`NoConnectorAvailable`, other error statuses to `HTTPError`. -/
def delete_connector (ip id : String) (script : List CResp) :
    Except Err Bool × List String × List CResp :=
  if id.length = 0 then (Except.error Err.valueError, [], script)
  else
    match script with
    | [] => (Except.error Err.scriptExhausted, [], [])
    | CResp.connFail :: rest =>
      (Except.error Err.noConnectServerAvailable,
       ["DELETE http://" ++ ip ++ "/connectors/" ++ id ++ "/"], rest)
    | CResp.status code _ :: rest =>
      if code < 400 then
        (Except.ok true, ["DELETE http://" ++ ip ++ "/connectors/" ++ id ++ "/"], rest)
      else if code = 404 then
        (Except.error Err.noConnectorAvailable,
         ["DELETE http://" ++ ip ++ "/connectors/" ++ id ++ "/"], rest)
      else
        (Except.error (Err.httpError code),
         ["DELETE http://" ++ ip ++ "/connectors/" ++ id ++ "/"], rest)

/-- The `config` argument of `load_connector`: a JSON-encoded string (with
a flag recording whether it parses as a JSON dict), an already-structured
mapping, or some other Python value. -/
inductive PyConfig
  | str (s : String) (parses : Bool)
  | dict (m : List (String × String))
  | other
deriving Repr, DecidableEq

/-- Python `len` of a `PyConfig` value as used by the guard of
`load_connector`; `none` models the `TypeError` `len` raises on values
without a length. -/
def pyConfigLen : PyConfig → Option Nat
  | PyConfig.str s _ => some s.length
  | PyConfig.dict m => some m.length
  | PyConfig.other => none

/-- `load_connector` (lines 268-307): rejects an empty identifier or empty
config, rejects a string config that fails JSON parsing or a non-str,
non-dict config, then POSTs; no 404 mapping. -/
def load_connector (ip id : String) (config : PyConfig) (script : List CResp) :
    Except Err Bool × List String × List CResp :=
  if id.length = 0 then (Except.error Err.valueError, [], script)
  else
    match pyConfigLen config with
    | none => (Except.error Err.typeError, [], script)
    | some n =>
      if n = 0 then (Except.error Err.valueError, [], script)
      else
        match config with
        | PyConfig.str _ false => (Except.error Err.valueError, [], script)
        | PyConfig.other => (Except.error Err.valueError, [], script)
        | _ =>
          match script with
          | [] => (Except.error Err.scriptExhausted, [], [])
          | CResp.connFail :: rest =>
            (Except.error Err.noConnectServerAvailable,
             ["POST http://" ++ ip ++ "/connectors"], rest)
          | CResp.status code _ :: rest =>
            if code < 400 then
              (Except.ok true, ["POST http://" ++ ip ++ "/connectors"], rest)
            else
              (Except.error (Err.httpError code),
               ["POST http://" ++ ip ++ "/connectors"], rest)

/-! ### Schema registry manager: scripted HTTP layer -/

/-- Bodies of Schema Registry responses: a version list, a bare number
(deleted version), an opaque schema document, a document carrying an `id`
field, and a document carrying a `schema` field holding a JSON-encoded
schema string. -/
inductive SBody
  | nats (l : List Nat)
  | num (n : Nat)
  | doc (d : String)
  | withId (i : Nat)
  | withSchema (s : String)
deriving Repr, DecidableEq

/-- A scripted response of the Schema Registry. -/
inductive SResp
  | connFail
  | status (code : Nat) (body : SBody)
deriving Repr, DecidableEq

/-- Request descriptor for `GET /subjects/{subject}/versions`. -/
def versionsPath (ip subject : String) : String :=
  "GET http://" ++ ip ++ "/subjects/" ++ subject ++ "/versions"

/-- Request descriptor for `GET /subjects/{subject}/versions/{v}/schema`. -/
def schemaPath (ip subject : String) (v : Nat) : String :=
  "GET http://" ++ ip ++ "/subjects/" ++ subject ++ "/versions/" ++ toString v ++ "/schema"

/-- Request descriptor for `GET /subjects/{subject}/versions/{v}`. -/
def versionPath (ip subject : String) (v : Nat) : String :=
  "GET http://" ++ ip ++ "/subjects/" ++ subject ++ "/versions/" ++ toString v

/-- Request descriptor for `DELETE /subjects/{subject}/versions/{v}`. -/
def delVersionPath (ip subject : String) (v : Nat) : String :=
  "DELETE http://" ++ ip ++ "/subjects/" ++ subject ++ "/versions/" ++ toString v

/-- `get_subject_versions` (lines 99-126): rejects an empty subject, then
one GET; a transport failure maps to `NoSchemaRegistryAvailable` and every
error status is re-raised as the generic `HTTPError` (no 404 branch). -/
def get_subject_versions (ip subject : String) (script : List SResp) :
    Except Err (List Nat) × List String × List SResp :=
  if subject.length = 0 then (Except.error Err.valueError, [], script)
  else
    match script with
    | [] => (Except.error Err.scriptExhausted, [], [])
    | SResp.connFail :: rest =>
      (Except.error Err.noSchemaRegistryAvailable, [versionsPath ip subject], rest)
    | SResp.status code body :: rest =>
      if code < 400 then
        match body with
        | SBody.nats l => (Except.ok l, [versionsPath ip subject], rest)
        | _ => (Except.error Err.typeError, [versionsPath ip subject], rest)
      else
        (Except.error (Err.httpError code), [versionsPath ip subject], rest)

/-- `get_subject_schema` (lines 128-161): rejects an empty subject; when no
version is given it first lists the versions and takes their maximum
(`max` of an empty list raising `ValueError`), then GETs the schema at the
resolved version; no 404 branch. -/
def get_subject_schema (ip subject : String) (version : Option Nat)
    (script : List SResp) : Except Err String × List String × List SResp :=
  if subject.length = 0 then (Except.error Err.valueError, [], script)
  else
    let resolved : Except Err Nat × List String × List SResp :=
      match version with
      | some v => (Except.ok v, [], script)
      | none =>
        match get_subject_versions ip subject script with
        | (Except.error e, tr, rest) => (Except.error e, tr, rest)
        | (Except.ok l, tr, rest) =>
          match pyMax l with
          | none => (Except.error Err.valueError, tr, rest)
          | some v => (Except.ok v, tr, rest)
    match resolved with
    | (Except.error e, tr, rest) => (Except.error e, tr, rest)
    | (Except.ok v, tr, rest) =>
      match rest with
      | [] => (Except.error Err.scriptExhausted, tr, [])
      | SResp.connFail :: rest2 =>
        (Except.error Err.noSchemaRegistryAvailable, tr ++ [schemaPath ip subject v], rest2)
      | SResp.status code body :: rest2 =>
        if code < 400 then
          match body with
          | SBody.doc d => (Except.ok d, tr ++ [schemaPath ip subject v], rest2)
          | _ => (Except.error Err.typeError, tr ++ [schemaPath ip subject v], rest2)
        else
          (Except.error (Err.httpError code), tr ++ [schemaPath ip subject v], rest2)

/-- `get_subject_schema_id` (lines 163-196): same latest-version resolution
as `get_subject_schema`, then GETs the version document and extracts its
`id` field; no 404 branch. -/
def get_subject_schema_id (ip subject : String) (version : Option Nat)
    (script : List SResp) : Except Err Nat × List String × List SResp :=
  if subject.length = 0 then (Except.error Err.valueError, [], script)
  else
    let resolved : Except Err Nat × List String × List SResp :=
      match version with
      | some v => (Except.ok v, [], script)
      | none =>
        match get_subject_versions ip subject script with
        | (Except.error e, tr, rest) => (Except.error e, tr, rest)
        | (Except.ok l, tr, rest) =>
          match pyMax l with
          | none => (Except.error Err.valueError, tr, rest)
          | some v => (Except.ok v, tr, rest)
    match resolved with
    | (Except.error e, tr, rest) => (Except.error e, tr, rest)
    | (Except.ok v, tr, rest) =>
      match rest with
      | [] => (Except.error Err.scriptExhausted, tr, [])
      | SResp.connFail :: rest2 =>
        (Except.error Err.noSchemaRegistryAvailable, tr ++ [versionPath ip subject v], rest2)
      | SResp.status code body :: rest2 =>
        if code < 400 then
          match body with
          | SBody.withId i => (Except.ok i, tr ++ [versionPath ip subject v], rest2)
          | _ => (Except.error (Err.keyError "id"), tr ++ [versionPath ip subject v], rest2)
        else
          (Except.error (Err.httpError code), tr ++ [versionPath ip subject v], rest2)

/-- A Python value passed as the `schema_id` argument of `get_schema`. -/
inductive PyVal
  | int (i : Int)
  | str (s : String)
  | noneV
deriving Repr, DecidableEq

/-- Request descriptor for `GET /schemas/ids/{schema_id}`. -/
def schemaIdPath (ip : String) (i : Int) : String :=
  "GET http://" ++ ip ++ "/schemas/ids/" ++ toString i

/-- `get_schema` (lines 198-225): rejects any non-`int` argument with
`ValueError` (the only validation — sign is not checked), then one GET and
a JSON decode of the body's `schema` field; no 404 branch. -/
def get_schema (ip : String) (schema_id : PyVal) (script : List SResp) :
    Except Err String × List String × List SResp :=
  match schema_id with
  | PyVal.int i =>
    (match script with
     | [] => (Except.error Err.scriptExhausted, [], [])
     | SResp.connFail :: rest =>
       (Except.error Err.noSchemaRegistryAvailable, [schemaIdPath ip i], rest)
     | SResp.status code body :: rest =>
       if code < 400 then
         match body with
         | SBody.withSchema s => (Except.ok s, [schemaIdPath ip i], rest)
         | _ => (Except.error (Err.keyError "schema"), [schemaIdPath ip i], rest)
       else
         (Except.error (Err.httpError code), [schemaIdPath ip i], rest))
  | _ => (Except.error Err.valueError, [], script)

/-- The `avro_schema` argument of `register_schema`: a JSON string or a
structured document; the external `avro.schema.Parse` verdict is carried as
a flag since the Avro library is outside this repository. -/
inductive ASchema
  | strV (s : String) (avroOk : Bool)
  | dictV (entries : List (String × String)) (avroOk : Bool)
deriving Repr, DecidableEq

/-- Python `len` of an `ASchema` value. -/
def aSchemaLen : ASchema → Nat
  | ASchema.strV s _ => s.length
  | ASchema.dictV m _ => m.length

/-- Verdict of the local `avro.schema.Parse` validation. -/
def aSchemaOk : ASchema → Bool
  | ASchema.strV _ ok => ok
  | ASchema.dictV _ ok => ok

/-- `register_schema` (lines 227-277): rejects an empty subject or an empty
schema, locally validates the Avro schema (raising `SchemaParseException`
before any request on failure), then POSTs the double-encoded envelope and
returns the assigned id; no 404 branch. -/
def register_schema (ip subject : String) (schema : ASchema) (script : List SResp) :
    Except Err Nat × List String × List SResp :=
  if subject.length = 0 then (Except.error Err.valueError, [], script)
  else if aSchemaLen schema = 0 then (Except.error Err.valueError, [], script)
  else if !aSchemaOk schema then (Except.error Err.schemaParseException, [], script)
  else
    match script with
    | [] => (Except.error Err.scriptExhausted, [], [])
    | SResp.connFail :: rest =>
      (Except.error Err.noSchemaRegistryAvailable,
       ["POST http://" ++ ip ++ "/subjects/" ++ subject ++ "/versions"], rest)
    | SResp.status code body :: rest =>
      if code < 400 then
        match body with
        | SBody.withId i =>
          (Except.ok i, ["POST http://" ++ ip ++ "/subjects/" ++ subject ++ "/versions"], rest)
        | _ =>
          (Except.error (Err.keyError "id"),
           ["POST http://" ++ ip ++ "/subjects/" ++ subject ++ "/versions"], rest)
      else
        (Except.error (Err.httpError code),
         ["POST http://" ++ ip ++ "/subjects/" ++ subject ++ "/versions"], rest)

/-- `delete_subject` (lines 279-306): rejects an empty subject, then one
DELETE returning the list of deleted versions; no 404 branch. -/
def delete_subject (ip subject : String) (script : List SResp) :
    Except Err (List Nat) × List String × List SResp :=
  if subject.length = 0 then (Except.error Err.valueError, [], script)
  else
    match script with
    | [] => (Except.error Err.scriptExhausted, [], [])
    | SResp.connFail :: rest =>
      (Except.error Err.noSchemaRegistryAvailable,
       ["DELETE http://" ++ ip ++ "/subjects/" ++ subject], rest)
    | SResp.status code body :: rest =>
      if code < 400 then
        match body with
        | SBody.nats l =>
          (Except.ok l, ["DELETE http://" ++ ip ++ "/subjects/" ++ subject], rest)
        | _ => (Except.error Err.typeError,
                ["DELETE http://" ++ ip ++ "/subjects/" ++ subject], rest)
      else
        (Except.error (Err.httpError code),
         ["DELETE http://" ++ ip ++ "/subjects/" ++ subject], rest)

/-- `delete_subject_version` (lines 308-338): rejects an empty subject,
resolves an omitted version to the maximum of the subject's versions, then
one DELETE returning the deleted version number.  Both 404 and 422 fall
into the generic `HTTPError` re-raise — the source has no 404 branch. -/
def delete_subject_version (ip subject : String) (version : Option Nat)
    (script : List SResp) : Except Err Nat × List String × List SResp :=
  if subject.length = 0 then (Except.error Err.valueError, [], script)
  else
    let resolved : Except Err Nat × List String × List SResp :=
      match version with
      | some v => (Except.ok v, [], script)
      | none =>
        match get_subject_versions ip subject script with
        | (Except.error e, tr, rest) => (Except.error e, tr, rest)
        | (Except.ok l, tr, rest) =>
          match pyMax l with
          | none => (Except.error Err.valueError, tr, rest)
          | some v => (Except.ok v, tr, rest)
    match resolved with
    | (Except.error e, tr, rest) => (Except.error e, tr, rest)
    | (Except.ok v, tr, rest) =>
      match rest with
      | [] => (Except.error Err.scriptExhausted, tr, [])
      | SResp.connFail :: rest2 =>
        (Except.error Err.noSchemaRegistryAvailable, tr ++ [delVersionPath ip subject v], rest2)
      | SResp.status code body :: rest2 =>
        if code < 400 then
          match body with
          | SBody.num n => (Except.ok n, tr ++ [delVersionPath ip subject v], rest2)
          | _ => (Except.error Err.typeError, tr ++ [delVersionPath ip subject v], rest2)
        else
          (Except.error (Err.httpError code), tr ++ [delVersionPath ip subject v], rest2)

/-- Decidable equality for `Except`, so concrete runs can be checked by
`decide`. -/
instance instDecEqExcept {ε α : Type} [DecidableEq ε] [DecidableEq α] :
    DecidableEq (Except ε α) := fun x y =>
  match x, y with
  | Except.ok a, Except.ok b =>
    if h : a = b then isTrue (by rw [h])
    else isFalse (by intro hh; cases hh; exact h rfl)
  | Except.error a, Except.error b =>
    if h : a = b then isTrue (by rw [h])
    else isFalse (by intro hh; cases hh; exact h rfl)
  | Except.ok _, Except.error _ => isFalse (by intro hh; cases hh)
  | Except.error _, Except.ok _ => isFalse (by intro hh; cases hh)

/-! ### Concrete example inputs -/

/-- The known non-JDBC-source connector classes and the technology label
each one receives (the elif chain of lines 213-226). -/
def otherKnownClasses : List (String × String) :=
  [("io.confluent.connect.activemq.ActiveMQSourceConnectorConfig", "ActiveMQ"),
   ("io.confluent.connect.s3.S3SinkConnector", "S3"),
   ("io.confluent.connect.elasticsearch.ElasticsearchSinkConnector", "Elasticsearch"),
   ("io.confluent.connect.hdfs.HdfsSinkConnector", "HDFS"),
   ("io.confluent.connect.ibm.mq.IbmMQSourceConnectorConfig", "IBM MQ"),
   ("io.confluent.connect.jdbc.JdbcSinkConnector", "JDBC"),
   ("io.confluent.connect.jms.JmsSourceConnector", "JMS")]

/-- A whitelist-mode MySQL JDBC source configuration. -/
def cfgC1 : List (String × String) :=
  [("connector.class", "io.confluent.connect.jdbc.JdbcSourceConnector"),
   ("connection.url", "jdbc:mysql://host1:3306/mydb"),
   ("table.whitelist", "t1,t2"),
   ("topic.prefix", "pfx-")]

/-- The same MySQL JDBC source configuration without a whitelist, i.e. in
query mode. -/
def cfgQuery : List (String × String) :=
  [("connector.class", "io.confluent.connect.jdbc.JdbcSourceConnector"),
   ("connection.url", "jdbc:mysql://host1:3306/mydb"),
   ("topic.prefix", "pfx")]

/-- An S3 sink configuration, a known non-JDBC-source technology. -/
def cfgS3 : List (String × String) :=
  [("connector.class", "io.confluent.connect.s3.S3SinkConnector"),
   ("s3.bucket.name", "b")]

/-- Upper-bound and membership facts about a `Nat.max` fold, used to show
that the version `max` resolves to is the maximum of the version list. -/
theorem foldl_max_spec (xs : List Nat) (a : Nat) :
    (xs.foldl Nat.max a = a ∨ xs.foldl Nat.max a ∈ xs) ∧
      a ≤ xs.foldl Nat.max a ∧ ∀ y ∈ xs, y ≤ xs.foldl Nat.max a := by
  induction xs generalizing a with
  | nil => simp
  | cons x xs ih =>
    obtain ⟨h1, h2, h3⟩ := ih (Nat.max a x)
    simp only [List.foldl_cons]
    refine ⟨?_, ?_, ?_⟩
    · rcases h1 with h | h
      · rcases Nat.le_total x a with hax | hax
        · left
          rw [h]
          exact Nat.max_eq_left hax
        · right
          exact List.mem_cons.mpr (Or.inl (by rw [h]; exact Nat.max_eq_right hax))
      · exact Or.inr (List.mem_cons_of_mem x h)
    · exact (Nat.le_max_left a x).trans h2
    · intro y hy
      rcases List.mem_cons.mp hy with rfl | hy
      · exact (Nat.le_max_right a y).trans h2
      · exact h3 y hy

/-- `pyMax l = some m` means `m` is a greatest element of `l`. -/
theorem pyMax_spec (l : List Nat) (m : Nat) (h : pyMax l = some m) :
    m ∈ l ∧ ∀ y ∈ l, y ≤ m := by
  cases l with
  | nil => simp [pyMax] at h
  | cons x xs =>
    simp only [pyMax, Option.some.injEq] at h
    subst h
    obtain ⟨h1, h2, h3⟩ := foldl_max_spec xs x
    constructor
    · rcases h1 with h | h
      · rw [h]
        exact List.mem_cons_self x xs
      · exact List.mem_cons_of_mem x h
    · intro y hy
      rcases List.mem_cons.mp hy with rfl | hy
      · exact h2
      · exact h3 y hy

/-! ### Claim theorems

In the claims the spec's field names map onto the dict keys of the source
as follows: jdbc_dialect is `jdbc_type`, jdbc_database_or_sid is
`jdbc_database` / `jdbc_sid`, tracked_tables is `tables`, produced_topics
is `topics`, derived_subjects is `subjects`, category is `type_` and
technology is `class_`. -/

/-- C1: on a JDBC source connector with connection.url
"jdbc:mysql://host1:3306/mydb", table.whitelist "t1,t2" and topic.prefix
"pfx-", inspect yields dialect "mysql", location "host1:3306", database
"mydb", tables ["t1","t2"], topics ["pfx-t1","pfx-t2"] and the interleaved
key/value subjects, topic order preserved and key before value. -/
theorem c1_mysql_enrichment :
    (get_connector_info "h:8083" "x"
        [CResp.status 200 (CBody.raw { name := "x", config := cfgC1 }),
         CResp.status 200 (CBody.st "RUNNING")]).1.map
      (fun i => (i.jdbc_type, i.jdbc_location, i.jdbc_database,
                 i.tables, i.topics, i.subjects))
      = Except.ok (some "mysql", some "host1:3306", some "mydb",
                   some ["t1", "t2"], some (Topics.list ["pfx-t1", "pfx-t2"]),
                   some ["pfx-t1-key", "pfx-t1-value",
                         "pfx-t2-key", "pfx-t2-value"]) := by
  rfl

/-- C2 (code bug): in query mode (no table.whitelist) the source stores the
raw `topic.prefix` string itself under `topics` instead of the
single-element list its own docstring promises ("topics (list): list of
topics"), so the subject derivation iterates over the characters of the
string: with topic.prefix "pfx" the code produces six per-character
subjects instead of the two entries "pfx-key" and "pfx-value" the claim
states. -/
theorem c2_query_mode_per_char :
    (enrichInfo { name := "x", config := cfgQuery } "RUNNING").map
        (fun i => (i.tables, i.topics, i.subjects))
      = Except.ok (some [], some (Topics.str "pfx"),
                   some ["p-key", "p-value", "f-key", "f-value",
                         "x-key", "x-value"]) ∧
    (enrichInfo { name := "x", config := cfgQuery } "RUNNING").map
        (fun i => i.topics)
      ≠ Except.ok (some (Topics.list ["pfx"])) := by
  constructor
  · decide
  · decide

/-- C5 counterexample: a 404 answer to the delete-version request makes
`delete_subject_version` raise the generic `HTTPError` re-raised by
`raise e`, and not any typed not-found error — the source has no 404
branch and `SchemaRegistryManager` defines no not-found exception at
all. -/
theorem c5_counterexample :
    delete_subject_version "h:8081" "s" (some 1) [SResp.status 404 (SBody.num 0)]
      = (Except.error (Err.httpError 404), [delVersionPath "h:8081" "s" 1], []) ∧
    (delete_subject_version "h:8081" "s" (some 1) [SResp.status 404 (SBody.num 0)]).1
      ≠ Except.error Err.noConnectorAvailable := by
  constructor
  · decide
  · decide

/-- C5 (amended): on a 404 answer `delete_subject_version` surfaces the
generic HTTP error carrying status 404 (the registry manager has no typed
not-found error to raise). -/
theorem c5_amended (ip subject : String) (v : Nat) (b : SBody) (rest : List SResp)
    (hs : subject.length ≠ 0) :
    delete_subject_version ip subject (some v) (SResp.status 404 b :: rest)
      = (Except.error (Err.httpError 404), [delVersionPath ip subject v], rest) := by
  simp [delete_subject_version, hs]

/-- C5 witness. -/
theorem c5_amended_witness :
    delete_subject_version "h:8081" "sub" (some 2) [SResp.status 404 (SBody.num 0)]
      = (Except.error (Err.httpError 404), [delVersionPath "h:8081" "sub" 2], []) :=
  c5_amended "h:8081" "sub" 2 (SBody.num 0) [] (by decide)

/-- C6 (code bug): `pause_connector` has no `except HTTPError` branch, so a
404 answer surfaces as the generic `HTTPError` instead of the
`NoConnectorAvailable` its own docstring promises, while `resume_connector`,
`restart_connector` and `delete_connector` all map the same 404 to
`NoConnectorAvailable`. -/
theorem c6_pause_404_not_mapped :
    (pause_connector "h:8083" "c" [CResp.status 404 CBody.emptyB]).1
      = Except.error (Err.httpError 404) ∧
    (pause_connector "h:8083" "c" [CResp.status 404 CBody.emptyB]).1
      ≠ Except.error Err.noConnectorAvailable ∧
    (resume_connector "h:8083" "c" [CResp.status 404 CBody.emptyB]).1
      = Except.error Err.noConnectorAvailable ∧
    (restart_connector "h:8083" "c" [CResp.status 404 CBody.emptyB]).1
      = Except.error Err.noConnectorAvailable ∧
    (delete_connector "h:8083" "c" [CResp.status 404 CBody.emptyB]).1
      = Except.error Err.noConnectorAvailable := by
  refine ⟨by decide, by decide, by decide, by decide, by decide⟩

/-- C7 counterexample: `get_schema` only checks `isinstance(schema_id, int)`,
so the negative integer -1 passes validation and the request is issued (the
trace is non-empty and the call succeeds), refuting "fails before issuing
any network request" for negative integers. -/
theorem c7_counterexample :
    get_schema "h:8081" (PyVal.int (-1)) [SResp.status 200 (SBody.withSchema "sch")]
      = (Except.ok "sch", [schemaIdPath "h:8081" (-1)], []) ∧
    (get_schema "h:8081" (PyVal.int (-1))
        [SResp.status 200 (SBody.withSchema "sch")]).2.1 ≠ [] := by
  constructor
  · decide
  · decide

/-- C7 (amended): only a non-integer `schema_id` fails the `isinstance`
check with `ValueError` before any request; every integer — negative ones
included — proceeds to issue the GET against the schema-id namespace. -/
theorem c7_amended (ip : String) :
    (∀ s script, get_schema ip (PyVal.str s) script
        = (Except.error Err.valueError, [], script)) ∧
    (∀ script, get_schema ip PyVal.noneV script
        = (Except.error Err.valueError, [], script)) ∧
    (∀ (i : Int) (r : SResp) (rest : List SResp),
        (get_schema ip (PyVal.int i) (r :: rest)).2.1 = [schemaIdPath ip i]) := by
  refine ⟨fun s script => rfl, fun script => rfl, fun i r rest => ?_⟩
  cases r with
  | connFail => rfl
  | status code body =>
    simp only [get_schema]
    split
    · split <;> rfl
    · rfl

/-- C4: the config fetch of inspect never surfaces a 409: a 409-then-200
script succeeds after exactly one retry of the same request (the trace is
the same GET twice) with one second slept before the second attempt, a 404
raises `NoConnectorAvailable`, any other error status raises the generic
`HTTPError` with no retry (one request in the trace, nothing slept), and
inspect on the 409-then-200 script returns the enriched result without any
409-shaped error. -/
theorem c4_conflict_retry (ip id : String) (hid : id.length ≠ 0) :
    (∀ (b : CBody) (r : RawConnector) (rest : List CResp),
        fetchConnector ip id
            (CResp.status 409 b :: CResp.status 200 (CBody.raw r) :: rest)
          = (Except.ok (r, rest), [cPath ip id, cPath ip id], 1)) ∧
    (∀ (b : CBody) (rest : List CResp),
        fetchConnector ip id (CResp.status 404 b :: rest)
          = (Except.error Err.noConnectorAvailable, [cPath ip id], 0)) ∧
    (∀ (code : Nat) (b : CBody) (rest : List CResp),
        400 ≤ code → code ≠ 404 → code ≠ 409 →
        fetchConnector ip id (CResp.status code b :: rest)
          = (Except.error (Err.httpError code), [cPath ip id], 0)) ∧
    (∀ (b : CBody) (raw : RawConnector) (s : String),
        get_connector_info ip id
            [CResp.status 409 b, CResp.status 200 (CBody.raw raw),
             CResp.status 200 (CBody.st s)]
          = (enrichInfo raw s, [cPath ip id, cPath ip id, cStatusPath ip id], 1)) := by
  refine ⟨fun b r rest => rfl, fun b rest => rfl, ?_, ?_⟩
  · intro code b rest h1 h2 h3
    simp only [fetchConnector]
    rw [if_neg (by omega), if_neg h2, if_neg h3]
  · intro b raw s
    simp only [get_connector_info, if_neg hid, fetchConnector, get_connector_status]
    norm_num

/-- C4 witness. -/
theorem c4_conflict_retry_witness :
    (fetchConnector "h:8083" "c"
        [CResp.status 409 CBody.emptyB,
         CResp.status 200 (CBody.raw { name := "c", config := cfgC1 })]
      = (Except.ok ({ name := "c", config := cfgC1 }, []),
         [cPath "h:8083" "c", cPath "h:8083" "c"], 1)) ∧
    (fetchConnector "h:8083" "c" [CResp.status 404 CBody.emptyB]
      = (Except.error Err.noConnectorAvailable, [cPath "h:8083" "c"], 0)) ∧
    (fetchConnector "h:8083" "c" [CResp.status 500 CBody.emptyB]
      = (Except.error (Err.httpError 500), [cPath "h:8083" "c"], 0)) ∧
    (get_connector_info "h:8083" "c"
        [CResp.status 409 CBody.emptyB,
         CResp.status 200 (CBody.raw { name := "c", config := cfgC1 }),
         CResp.status 200 (CBody.st "RUNNING")]
      = (enrichInfo { name := "c", config := cfgC1 } "RUNNING",
         [cPath "h:8083" "c", cPath "h:8083" "c", cStatusPath "h:8083" "c"], 1)) := by
  obtain ⟨p1, p2, p3, p4⟩ := c4_conflict_retry "h:8083" "c" (by decide)
  exact ⟨p1 CBody.emptyB { name := "c", config := cfgC1 } [],
         p2 CBody.emptyB [],
         p3 500 CBody.emptyB [] (by omega) (by omega) (by omega),
         p4 CBody.emptyB { name := "c", config := cfgC1 } "RUNNING"⟩

/-- C8: every operation of either manager that takes a connector name or a
subject rejects the empty string with `ValueError` while its request trace
stays empty (no HTTP request issued) and the response script stays
unread. -/
theorem c8_empty_identifier_rejected (ip : String) :
    (∀ script, get_connector_info ip "" script
        = (Except.error Err.valueError, [], 0)) ∧
    (∀ script, get_connector_status ip "" script
        = (Except.error Err.valueError, [], script)) ∧
    (∀ config script, load_connector ip "" config script
        = (Except.error Err.valueError, [], script)) ∧
    (∀ script, pause_connector ip "" script
        = (Except.error Err.valueError, [], script)) ∧
    (∀ script, resume_connector ip "" script
        = (Except.error Err.valueError, [], script)) ∧
    (∀ script, restart_connector ip "" script
        = (Except.error Err.valueError, [], script)) ∧
    (∀ script, delete_connector ip "" script
        = (Except.error Err.valueError, [], script)) ∧
    (∀ script, get_subject_versions ip "" script
        = (Except.error Err.valueError, [], script)) ∧
    (∀ version script, get_subject_schema ip "" version script
        = (Except.error Err.valueError, [], script)) ∧
    (∀ version script, get_subject_schema_id ip "" version script
        = (Except.error Err.valueError, [], script)) ∧
    (∀ schema script, register_schema ip "" schema script
        = (Except.error Err.valueError, [], script)) ∧
    (∀ script, delete_subject ip "" script
        = (Except.error Err.valueError, [], script)) ∧
    (∀ version script, delete_subject_version ip "" version script
        = (Except.error Err.valueError, [], script)) :=
  ⟨fun _ => rfl, fun _ => rfl, fun _ _ => rfl, fun _ => rfl, fun _ => rfl,
   fun _ => rfl, fun _ => rfl, fun _ => rfl, fun _ _ => rfl, fun _ _ => rfl,
   fun _ _ => rfl, fun _ => rfl, fun _ _ => rfl⟩

/-- C9: `get_subject_schema` with the version omitted makes exactly two
remote calls — first the subject's version list, then the schema at the
resolved version — and the resolved version is the maximum of the returned
list (a member of the list that bounds every member). -/
theorem c9_latest_two_calls (ip subject : String) (hs : subject.length ≠ 0)
    (l : List Nat) (m : Nat) (hm : pyMax l = some m) (d : String)
    (rest : List SResp) :
    get_subject_schema ip subject none
        (SResp.status 200 (SBody.nats l) :: SResp.status 200 (SBody.doc d) :: rest)
      = (Except.ok d, [versionsPath ip subject, schemaPath ip subject m], rest) ∧
    m ∈ l ∧ ∀ y ∈ l, y ≤ m := by
  refine ⟨?_, pyMax_spec l m hm⟩
  simp only [get_subject_schema, get_subject_versions, if_neg hs]
  norm_num
  rw [hm]
  norm_num

/-- C9 witness. -/
theorem c9_latest_two_calls_witness :
    get_subject_schema "h:8081" "sub" none
        [SResp.status 200 (SBody.nats [1, 3, 2]), SResp.status 200 (SBody.doc "doc")]
      = (Except.ok "doc",
         [versionsPath "h:8081" "sub", schemaPath "h:8081" "sub" 3], []) ∧
    3 ∈ [1, 3, 2] ∧ ∀ y ∈ [1, 3, 2], y ≤ 3 :=
  c9_latest_two_calls "h:8081" "sub" (by decide) [1, 3, 2] 3 (by decide) "doc" []

/-- C3 counterexample: on the known S3 sink class the enrichment leaves the
`topics` key entirely absent (reading it would raise `KeyError`), not the
empty list the claim states — only the unmatched-class else branch writes
`topics = []`. -/
theorem c3_counterexample :
    (enrichInfo { name := "s", config := cfgS3 } "RUNNING").map
        (fun i => i.topics) = Except.ok none ∧
    (enrichInfo { name := "s", config := cfgS3 } "RUNNING").map
        (fun i => i.topics) ≠ Except.ok (some (Topics.list [])) := by
  constructor
  · rfl
  · decide

/-- C3 (amended): the enrichment populates `topics` and `subjects` exactly
on the JDBC-source branch (regardless of whether a dialect matches the
URL); every other known technology leaves `topics` and `subjects` absent
while setting its technology label, and an unmatched class leaves the
technology unresolved and sets `topics` to the empty list — no crash in
either non-JDBC case. -/
theorem c3_amended (name state cls : String) (cfg : List (String × String))
    (hc : cfg.lookup "connector.class" = some cls) :
    (∀ p ∈ otherKnownClasses, cls = p.1 →
        (enrichInfo { name := name, config := cfg } state).map
            (fun i => (i.class_, i.topics, i.subjects))
          = Except.ok (some p.2, none, none)) ∧
    (cls ≠ jdbcSrcClass → cls ∉ otherKnownClasses.map Prod.fst →
        (enrichInfo { name := name, config := cfg } state).map
            (fun i => (i.class_, i.topics, i.subjects))
          = Except.ok (none, some (Topics.list []), none)) ∧
    (cls = jdbcSrcClass →
        (enrichInfo { name := name, config := cfg } state).map
            (fun i => (i.topics.isSome && i.subjects.isSome))
          ≠ Except.ok false) := by
  refine ⟨?_, ?_, ?_⟩
  · intro p hp hcls
    subst hcls
    fin_cases hp <;> (simp only [enrichInfo, hc]; rfl)
  · intro h1 h2
    simp only [otherKnownClasses, List.map_cons, List.map_nil, List.mem_cons,
      List.not_mem_nil, or_false, not_or] at h2
    obtain ⟨n1, n2, n3, n4, n5, n6, n7⟩ := h2
    simp only [enrichInfo, hc]
    rw [if_neg h1, if_neg n1, if_neg n2, if_neg n3, if_neg n4, if_neg n5,
      if_neg n6, if_neg n7]
    rfl
  · intro h1
    subst h1
    simp only [enrichInfo, hc, if_pos rfl]
    cases hu : cfg.lookup "connection.url" with
    | none => simp [Except.map]
    | some url =>
      cases hj : jdbcFields url with
      | none => simp [hj, Except.map]
      | some jf =>
        cases hw : cfg.lookup "table.whitelist" with
        | none =>
          cases hp : cfg.lookup "topic.prefix" with
          | none => simp [hj, hp, Except.map]
          | some pfx => simp [hj, hp, Except.map]
        | some wl =>
          cases hp : cfg.lookup "topic.prefix" with
          | none => simp [hj, hp, Except.map]
          | some pfx => simp [hj, hp, Except.map]

/-- C3 witness. -/
theorem c3_amended_witness :
    (enrichInfo { name := "s", config := cfgS3 } "RUNNING").map
        (fun i => (i.class_, i.topics, i.subjects))
      = Except.ok (some "S3", none, none) :=
  (c3_amended "s" "RUNNING" "io.confluent.connect.s3.S3SinkConnector" cfgS3
      (by decide)).1
    ("io.confluent.connect.s3.S3SinkConnector", "S3") (by decide) rfl

/-- C10: every config lookup of the enrichment succeeds once the fetched
config contains "connector.class" and — when that class is the JDBC source
class — "connection.url" and "topic.prefix": under that precondition the
enrichment never fails with a `KeyError` (the only remaining failure is the
`IndexError` of the URL splits); a config missing one of these keys makes
the enrichment fail with the unclassified `KeyError` naming that key, not a
typed taxonomy error. -/
theorem c10_config_lookups :
    (∀ (name state cls : String) (cfg : List (String × String)),
        cfg.lookup "connector.class" = some cls →
        (cls = jdbcSrcClass →
          (cfg.lookup "connection.url").isSome ∧
            (cfg.lookup "topic.prefix").isSome) →
        ∀ k, enrichInfo { name := name, config := cfg } state
            ≠ Except.error (Err.keyError k)) ∧
    (∀ (name state : String) (cfg : List (String × String)),
        cfg.lookup "connector.class" = none →
        enrichInfo { name := name, config := cfg } state
          = Except.error (Err.keyError "connector.class")) ∧
    (∀ (name state : String) (cfg : List (String × String)),
        cfg.lookup "connector.class" = some jdbcSrcClass →
        cfg.lookup "connection.url" = none →
        enrichInfo { name := name, config := cfg } state
          = Except.error (Err.keyError "connection.url")) ∧
    (∀ (name state url : String) (jf : JdbcF) (cfg : List (String × String)),
        cfg.lookup "connector.class" = some jdbcSrcClass →
        cfg.lookup "connection.url" = some url →
        jdbcFields url = some jf →
        cfg.lookup "topic.prefix" = none →
        enrichInfo { name := name, config := cfg } state
          = Except.error (Err.keyError "topic.prefix")) := by
  refine ⟨?_, ?_, ?_, ?_⟩
  · intro name state cls cfg hc hkeys k
    by_cases hcls : cls = jdbcSrcClass
    · subst hcls
      obtain ⟨hu, hp⟩ := hkeys rfl
      obtain ⟨url, hu⟩ := Option.isSome_iff_exists.mp hu
      obtain ⟨pfx, hp⟩ := Option.isSome_iff_exists.mp hp
      simp only [enrichInfo, hc, if_pos rfl, hu]
      cases hj : jdbcFields url with
      | none => simp
      | some jf =>
        cases hw : cfg.lookup "table.whitelist" with
        | none => simp [hp]
        | some wl => simp [hp]
    · simp only [enrichInfo, hc]
      rw [if_neg hcls]
      split
      · simp
      split
      · simp
      split
      · simp
      split
      · simp
      split
      · simp
      split
      · simp
      split
      · simp
      simp
  · intro name state cfg hc
    simp [enrichInfo, hc]
  · intro name state cfg hc hu
    simp [enrichInfo, hc, hu]
  · intro name state url jf cfg hc hu hj hp
    cases hw : cfg.lookup "table.whitelist" with
    | none => simp [enrichInfo, hc, hu, hj, hw, hp]
    | some wl => simp [enrichInfo, hc, hu, hj, hw, hp]

/-- C10 witness. -/
theorem c10_config_lookups_witness :
    enrichInfo { name := "x", config := cfgC1 } "RUNNING"
      ≠ Except.error (Err.keyError "k") :=
  c10_config_lookups.1 "x" "RUNNING" jdbcSrcClass cfgC1 (by decide) (by decide) "k"

end KCU
